import Mathlib

/-!
Verification of the PDF-bot repository (src/PDF-chat.py) against its
natural-language specification.

The Python program is embedded shallowly:

* The Gemini provider is an external collaborator.  Each remote endpoint is
  modelled by an `Oracle` field giving the outcome the provider would produce
  for the (at most one) call the operation makes to that endpoint.  A Python
  exception is a value of type `Exc`; `Exc.apiError` models
  `google.genai.errors.APIError` and `Exc.otherError` models any other
  exception (for example a transport error raised by the HTTP layer), so that
  `except APIError` catches only the first constructor while
  `except Exception` catches both.
* Every operation returns, besides its Python return value, the successor
  state and the list of remote calls it issued, so that claims about which
  endpoints are reached can be stated.  An operation that lets an exception
  escape returns `Except.error e` in its result component; the state component
  still records the mutations performed before the raise (Python `finally`
  blocks run even then).
* `QTextEdit` plain text is a string; `append` adds the new text as a fresh
  paragraph.  Python `str.strip` and `str.replace` are translated as
  `pyStrip` and `pyReplace` (`str.replace` replaces every non-overlapping
  occurrence, left to right).
-/

namespace PDFBot

/-- A Python exception: either a `google.genai` `APIError` or any other
exception (transport error, `ValueError`, ...). -/
inductive Exc where
  | apiError : String → Exc
  | otherError : String → Exc
deriving DecidableEq

/-- The opaque file object returned by `client.files.upload`; the code only
uses its `name` attribute (for deletion). -/
structure FileRef where
  name : String
deriving DecidableEq

/-- Outcome the provider would produce for each remote endpoint, if called.
Each operation of the session calls each endpoint at most once. -/
structure Oracle where
  deleteResult : Except Exc Unit
  uploadResult : Except Exc FileRef
  generateResult : Except Exc String

/-- A remote call issued to the provider, recorded in issue order. -/
inductive Call where
  | delete : String → Call
  | upload : String → Call
  | generate : String → String → String → Call
deriving DecidableEq

/-- The mutable state of `SimpleQASystem`: the stored file reference and the
model name (the `client` object itself is stateless here). -/
structure SimpleQASystem where
  uploaded_file_ref : Option FileRef
  llm_model : String
deriving DecidableEq

/-- The string returned by `ask_question` when no document is held. -/
def noDocumentMsg : String := "Error: No document has been successfully uploaded."

/-- `SimpleQASystem.cleanup_file`: if a reference is held, issue a delete to
the provider; an `APIError` is caught and logged; any other exception
propagates; the `finally` block clears the reference in every case. -/
def cleanup_file (s : SimpleQASystem) (o : Oracle) :
    Except Exc Unit × SimpleQASystem × List Call :=
  match s.uploaded_file_ref with
  | none => (Except.ok (), s, [])
  | some ref =>
    match o.deleteResult with
    | Except.ok _ =>
        (Except.ok (), { s with uploaded_file_ref := none }, [Call.delete ref.name])
    | Except.error (Exc.apiError _) =>
        (Except.ok (), { s with uploaded_file_ref := none }, [Call.delete ref.name])
    | Except.error (Exc.otherError m) =>
        (Except.error (Exc.otherError m), { s with uploaded_file_ref := none },
          [Call.delete ref.name])

/-- `SimpleQASystem.upload_pdf`: first `cleanup_file` (outside the `try`
block, so an exception escaping it escapes `upload_pdf`), then the upload
call; on success store the new reference and return `True`; both `APIError`
and any other exception from the upload call are caught and yield `False`. -/
def upload_pdf (s : SimpleQASystem) (pdf_path : String) (o : Oracle) :
    Except Exc Bool × SimpleQASystem × List Call :=
  match cleanup_file s o with
  | (Except.error e, s1, t1) => (Except.error e, s1, t1)
  | (Except.ok _, s1, t1) =>
    match o.uploadResult with
    | Except.ok h =>
        (Except.ok true, { s1 with uploaded_file_ref := some h }, t1 ++ [Call.upload pdf_path])
    | Except.error _ =>
        (Except.ok false, s1, t1 ++ [Call.upload pdf_path])

/-- `SimpleQASystem.ask_question`: with no stored reference, return the
`noDocumentMsg` string without contacting the provider; otherwise issue one
generate call; an `APIError` is converted to an error string; any other
exception propagates (only `except APIError` guards this call). -/
def ask_question (s : SimpleQASystem) (question : String) (o : Oracle) :
    Except Exc String × SimpleQASystem × List Call :=
  match s.uploaded_file_ref with
  | none => (Except.ok noDocumentMsg, s, [])
  | some ref =>
    match o.generateResult with
    | Except.ok text =>
        (Except.ok text, s, [Call.generate s.llm_model ref.name question])
    | Except.error (Exc.apiError m) =>
        (Except.ok ("Gemini API Error during generation: " ++ m), s,
          [Call.generate s.llm_model ref.name question])
    | Except.error (Exc.otherError m) =>
        (Except.error (Exc.otherError m), s,
          [Call.generate s.llm_model ref.name question])

/-- The task a `Worker` thread is constructed for. -/
inductive WorkerTask where
  | uploadTask : String → WorkerTask
  | askTask : String → WorkerTask

/-- `Worker.run`: dispatch on the task type, call the session operation and
emit `(message, is_success)`; `run` itself catches nothing, so an exception
escaping the operation terminates the worker (modelled as `Except.error`). -/
def worker_run (t : WorkerTask) (s : SimpleQASystem) (o : Oracle) :
    Except Exc ((String × Bool) × SimpleQASystem × List Call) :=
  match t with
  | WorkerTask.uploadTask p =>
    match upload_pdf s p o with
    | (Except.ok b, s1, tr) =>
        Except.ok
          ((if b then "PDF uploaded successfully. You can now ask questions."
            else "Error uploading PDF.", b), s1, tr)
    | (Except.error e, _, _) => Except.error e
  | WorkerTask.askTask q =>
    match ask_question s q o with
    | (Except.ok r, s1, tr) => Except.ok ((r, true), s1, tr)
    | (Except.error e, _, _) => Except.error e

/-- A character Python `str.strip` removes (space, tab, newline, carriage
return, vertical tab, form feed). -/
def pyWhitespace (c : Char) : Bool :=
  c = ' ' || c = '\t' || c = '\n' || c = '\r' || c = Char.ofNat 11 || c = Char.ofNat 12

/-- Python `str.strip()`: drop whitespace from both ends. -/
def pyStrip (s : String) : String :=
  ⟨(((s.data.dropWhile pyWhitespace).reverse).dropWhile pyWhitespace).reverse⟩

/-- `QTextEdit.append`: the new text becomes a fresh paragraph of the plain
text (no leading separator when the document is empty). -/
def pyAppend (h t : String) : String :=
  if h = "" then t else h ++ "\n" ++ t

/-- Python `str.replace` on character lists: replace every non-overlapping
occurrence of `pat`, scanning left to right, without rescanning the
replacement.  The fuel argument (instantiated with the length of the string
by `pyReplace`) only makes the recursion structural. -/
def replaceAllFuel (pat rep : List Char) : Nat → List Char → List Char
  | _, [] => []
  | 0, s => s
  | fuel + 1, c :: rest =>
    if pat ≠ [] ∧ pat <+: (c :: rest) then
      rep ++ replaceAllFuel pat rep fuel (List.drop pat.length (c :: rest))
    else
      c :: replaceAllFuel pat rep fuel rest

/-- Python `str.replace` on strings (for a nonempty pattern). -/
def pyReplace (s pat rep : String) : String :=
  ⟨replaceAllFuel pat.data rep.data s.data.length s.data⟩

/-- The task handed to the worker together with the state the controller is
left in and whether a warning dialog was shown. -/
structure ChatbotApp where
  chat_history : String
  question_input : String
  input_enabled : Bool
  pdf_processed : Bool
deriving DecidableEq

/-- The pending placeholder appended while a question is outstanding. -/
def thinkingMsg : String := "Gemini: Thinking..."

/-- `ChatbotApp.send_question`: return silently on a question that is empty
after stripping; warn and return when no PDF has been processed; otherwise
append the question and the placeholder to the transcript, clear and disable
the input, and dispatch an ask worker.  The second component is the worker
task dispatched (if any), the third whether the warning dialog was shown. -/
def send_question (app : ChatbotApp) : ChatbotApp × Option WorkerTask × Bool :=
  let question := pyStrip app.question_input
  if question = "" then (app, none, false)
  else if app.pdf_processed = false then (app, none, true)
  else
    ({ chat_history :=
         pyAppend (pyAppend app.chat_history ("\nUser: " ++ question)) thinkingMsg,
       question_input := "",
       input_enabled := false,
       pdf_processed := app.pdf_processed },
     some (WorkerTask.askTask question), false)

/-- `ChatbotApp.handle_question_result`: replace the placeholder in the plain
text of the transcript with the final response (Python `str.replace`, hence
every occurrence) and re-enable the input. -/
def handle_question_result (app : ChatbotApp) (response : String) : ChatbotApp :=
  { app with
    chat_history := pyReplace app.chat_history thinkingMsg ("Gemini: " ++ response),
    input_enabled := true }

/-- Python truthiness test `if not api_key:` for `Optional[str]`: `None` and
the empty string are falsy. -/
def pyFalsy : Option String → Bool
  | none => true
  | some s => decide (s = "")

/-- Outcome of `ChatbotApp.__init__`: either the process exits (recording the
number of blocking dialogs shown and the exit code, with no main window ever
built) or the application starts with its initial widget state. -/
inductive InitOutcome where
  | exited : Nat → Int → InitOutcome
  | running : Nat → ChatbotApp → InitOutcome
deriving DecidableEq

/-- The initial transcript text set by `init_ui`. -/
def welcomeMsg : String :=
  "Welcome to the Gemini File API Chatbot.\n\n1. Select and upload a PDF.\n2. Ask a question about the entire document."

/-- `ChatbotApp.__init__`: if `os.getenv` yields a falsy key (missing or
empty), show one critical dialog and `sys.exit(-1)` before `init_ui` runs;
otherwise build the UI (welcome text, chat input disabled) with
`pdf_processed = False` and show no dialog. -/
def chatbotApp_init (api_key : Option String) : InitOutcome :=
  if pyFalsy api_key then InitOutcome.exited 1 (-1)
  else InitOutcome.running 0 ⟨welcomeMsg, "", false, false⟩


/-- C1: with no handle held, `ask_question` returns the no-document failure
string, leaves the state unchanged and issues no remote call at all (in
particular no generate call). -/
theorem ask_question_no_document (s : SimpleQASystem) (q : String) (o : Oracle)
    (h : s.uploaded_file_ref = none) :
    ask_question s q o = (Except.ok noDocumentMsg, s, []) := by
  unfold ask_question
  rw [h]

/-- Witness for C1 at a concrete state, question and oracle. -/
theorem ask_question_no_document_witness :
    ask_question ⟨none, "gemini-2.5-flash"⟩ "What is X?"
      ⟨Except.ok (), Except.ok ⟨"files/f1"⟩, Except.ok "X is Y"⟩
      = (Except.ok noDocumentMsg, ⟨none, "gemini-2.5-flash"⟩, []) :=
  ask_question_no_document ⟨none, "gemini-2.5-flash"⟩ "What is X?"
    ⟨Except.ok (), Except.ok ⟨"files/f1"⟩, Except.ok "X is Y"⟩ rfl

/-- C10: `ask_question` never mutates the session state: the stored file
reference and the model name after the call are those before it, for every
question and every provider outcome (answer, no document, or error). -/
theorem ask_question_frame (s : SimpleQASystem) (q : String) (o : Oracle) :
    (ask_question s q o).2.1.uploaded_file_ref = s.uploaded_file_ref
    ∧ (ask_question s q o).2.1.llm_model = s.llm_model := by
  rcases s with ⟨r, m⟩
  rcases r with _ | ref
  · simp [ask_question]
  · rcases hg : o.generateResult with (em | em) | txt <;> simp [ask_question, hg]

/-- C4: `cleanup_file` is idempotent: after one call the stored reference is
cleared (even when the delete failed, thanks to the `finally` block), a
second consecutive call is a no-op issuing no remote call, and the two calls
together issue at most one delete call. -/
theorem cleanup_file_idempotent (s : SimpleQASystem) (o o2 : Oracle) :
    (cleanup_file s o).2.1.uploaded_file_ref = none
    ∧ cleanup_file (cleanup_file s o).2.1 o2
        = (Except.ok (), (cleanup_file s o).2.1, [])
    ∧ ((cleanup_file s o).2.2 ++ (cleanup_file (cleanup_file s o).2.1 o2).2.2).length ≤ 1 := by
  rcases s with ⟨r, m⟩
  rcases r with _ | ref
  · refine ⟨rfl, rfl, ?_⟩
    simp [cleanup_file]
  · rcases hd : o.deleteResult with (em | em) | u <;>
      refine ⟨?_, ?_, ?_⟩ <;> simp [cleanup_file, hd]

/-- If the delete endpoint does not raise a non-`APIError` exception,
`cleanup_file` returns normally and clears the stored reference. -/
theorem cleanup_file_ok (s : SimpleQASystem) (o : Oracle)
    (hd : ∀ m, o.deleteResult ≠ Except.error (Exc.otherError m)) :
    ∃ t, cleanup_file s o = (Except.ok (), ⟨none, s.llm_model⟩, t) := by
  rcases s with ⟨r, mo⟩
  rcases r with _ | ref
  · exact ⟨[], rfl⟩
  · rcases hdel : o.deleteResult with (em | em) | u
    · exact ⟨[Call.delete ref.name], by simp [cleanup_file, hdel]⟩
    · exact absurd hdel (hd em)
    · exact ⟨[Call.delete ref.name], by simp [cleanup_file, hdel]⟩

/-- As `cleanup_file_ok`, with the held reference and the exact trace. -/
theorem cleanup_file_some_ok (s : SimpleQASystem) (ref : FileRef) (o : Oracle)
    (h : s.uploaded_file_ref = some ref)
    (hd : ∀ m, o.deleteResult ≠ Except.error (Exc.otherError m)) :
    cleanup_file s o = (Except.ok (), ⟨none, s.llm_model⟩, [Call.delete ref.name]) := by
  rcases s with ⟨r, mo⟩
  cases h
  rcases hdel : o.deleteResult with (em | em) | u
  · simp [cleanup_file, hdel]
  · exact absurd hdel (hd em)
  · simp [cleanup_file, hdel]

/-- If the delete endpoint does not raise a non-`APIError` exception,
`upload_pdf` returns a boolean normally. -/
theorem upload_pdf_ok (s : SimpleQASystem) (p : String) (o : Oracle)
    (hd : ∀ m, o.deleteResult ≠ Except.error (Exc.otherError m)) :
    ∃ b s2 t, upload_pdf s p o = (Except.ok b, s2, t) := by
  obtain ⟨t, hc⟩ := cleanup_file_ok s o hd
  rcases hu : o.uploadResult with e | h
  · exact ⟨false, ⟨none, s.llm_model⟩, t ++ [Call.upload p], by simp [upload_pdf, hc, hu]⟩
  · exact ⟨true, ⟨some h, s.llm_model⟩, t ++ [Call.upload p], by simp [upload_pdf, hc, hu]⟩

/-- If the generate endpoint does not raise a non-`APIError` exception,
`ask_question` returns a string normally. -/
theorem ask_question_ok (s : SimpleQASystem) (q : String) (o : Oracle)
    (hg : ∀ m, o.generateResult ≠ Except.error (Exc.otherError m)) :
    ∃ r t, ask_question s q o = (Except.ok r, s, t) := by
  rcases hr : s.uploaded_file_ref with _ | ref
  · exact ⟨noDocumentMsg, [], by simp [ask_question, hr]⟩
  · rcases hgen : o.generateResult with (em | em) | txt
    · exact ⟨"Gemini API Error during generation: " ++ em,
        [Call.generate s.llm_model ref.name q], by simp [ask_question, hr, hgen]⟩
    · exact absurd hgen (hg em)
    · exact ⟨txt, [Call.generate s.llm_model ref.name q], by simp [ask_question, hr, hgen]⟩

/-- C2 counterexample: a transport-level exception (not an `APIError`) raised
by the generate call inside `ask_question` is caught nowhere (`ask_question`
guards the call only with `except APIError` and `Worker.run` catches
nothing), so it escapes and terminates the worker uncaught. -/
theorem worker_run_uncaught_generate_exception :
    worker_run (WorkerTask.askTask "What is X?")
      ⟨some ⟨"files/abc"⟩, "gemini-2.5-flash"⟩
      ⟨Except.ok (), Except.ok ⟨"files/new"⟩,
        Except.error (Exc.otherError "connection reset")⟩
      = Except.error (Exc.otherError "connection reset") := rfl

/-- C2 amended: provider-reported failures (`APIError`) are always caught at
the session boundary and turned into values, and the upload call itself is
guarded against every exception; only a non-`APIError` exception from the
delete or generate endpoints can escape.  Under the hypothesis that those two
endpoints raise at most `APIError`, no worker terminates uncaught. -/
theorem worker_remote_failures_contained (s : SimpleQASystem) (p q : String) (o : Oracle)
    (hd : ∀ m, o.deleteResult ≠ Except.error (Exc.otherError m))
    (hg : ∀ m, o.generateResult ≠ Except.error (Exc.otherError m)) :
    (∃ r, worker_run (WorkerTask.uploadTask p) s o = Except.ok r)
    ∧ (∃ r, worker_run (WorkerTask.askTask q) s o = Except.ok r) := by
  constructor
  · obtain ⟨b, s2, t, h⟩ := upload_pdf_ok s p o hd
    exact ⟨((if b then "PDF uploaded successfully. You can now ask questions."
        else "Error uploading PDF.", b), s2, t), by simp [worker_run, h]⟩
  · obtain ⟨r, t, h⟩ := ask_question_ok s q o hg
    exact ⟨((r, true), s, t), by simp [worker_run, h]⟩

/-- Witness for C2 amended: a state holding a handle and an oracle whose
delete and generate endpoints fail with `APIError`. -/
theorem worker_remote_failures_contained_witness :
    (∃ r, worker_run (WorkerTask.uploadTask "doc.pdf")
        ⟨some ⟨"files/old"⟩, "gemini-2.5-flash"⟩
        ⟨Except.error (Exc.apiError "quota"), Except.ok ⟨"files/new"⟩,
          Except.error (Exc.apiError "quota")⟩ = Except.ok r)
    ∧ (∃ r, worker_run (WorkerTask.askTask "What is X?")
        ⟨some ⟨"files/old"⟩, "gemini-2.5-flash"⟩
        ⟨Except.error (Exc.apiError "quota"), Except.ok ⟨"files/new"⟩,
          Except.error (Exc.apiError "quota")⟩ = Except.ok r) :=
  worker_remote_failures_contained ⟨some ⟨"files/old"⟩, "gemini-2.5-flash"⟩
    "doc.pdf" "What is X?" _
    (by intro m h; simp at h) (by intro m h; simp at h)

/-- C3 counterexample: the held handle is deleted, but when the delete raises
a non-`APIError` exception the upload does not proceed at all — the exception
escapes `cleanup_file` (called before the `try` block of `upload_pdf`), no
upload call is issued, and `upload_pdf` raises instead of returning. -/
theorem upload_pdf_cleanup_failure_blocks :
    upload_pdf ⟨some ⟨"files/old"⟩, "gemini-2.5-flash"⟩ "doc.pdf"
      ⟨Except.error (Exc.otherError "connection reset"), Except.ok ⟨"files/new"⟩,
        Except.ok "fine"⟩
      = (Except.error (Exc.otherError "connection reset"),
          ⟨none, "gemini-2.5-flash"⟩, [Call.delete "files/old"]) := rfl

/-- C3 amended: with a handle held, `upload_pdf` always issues the delete for
the old handle first; and whenever the delete succeeds or fails with an
`APIError` (the only failure `cleanup_file` swallows), the upload call is
still issued and `upload_pdf` returns normally. -/
theorem upload_pdf_deletes_old_then_uploads (s : SimpleQASystem) (ref : FileRef)
    (p : String) (o : Oracle) (h : s.uploaded_file_ref = some ref) :
    (upload_pdf s p o).2.2.head? = some (Call.delete ref.name)
    ∧ ((∀ m, o.deleteResult ≠ Except.error (Exc.otherError m)) →
        ∃ b s2, upload_pdf s p o
          = (Except.ok b, s2, [Call.delete ref.name, Call.upload p])) := by
  constructor
  · rcases s with ⟨r, mo⟩
    cases h
    rcases hdel : o.deleteResult with (em | em) | u
    · rcases hu : o.uploadResult with e | hh <;>
        simp [upload_pdf, cleanup_file, hdel, hu]
    · simp [upload_pdf, cleanup_file, hdel]
    · rcases hu : o.uploadResult with e | hh <;>
        simp [upload_pdf, cleanup_file, hdel, hu]
  · intro hd
    have hc := cleanup_file_some_ok s ref o h hd
    rcases hu : o.uploadResult with e | hh
    · exact ⟨false, ⟨none, s.llm_model⟩, by simp [upload_pdf, hc, hu]⟩
    · exact ⟨true, ⟨some hh, s.llm_model⟩, by simp [upload_pdf, hc, hu]⟩

/-- Witness for C3 amended: the delete fails with an `APIError`, yet the
upload is still issued and succeeds. -/
theorem upload_pdf_deletes_old_then_uploads_witness :
    ∃ b s2, upload_pdf ⟨some ⟨"files/old"⟩, "gemini-2.5-flash"⟩ "doc.pdf"
        ⟨Except.error (Exc.apiError "permission denied"), Except.ok ⟨"files/new"⟩,
          Except.ok "fine"⟩
      = (Except.ok b, s2, [Call.delete "files/old", Call.upload "doc.pdf"]) :=
  (upload_pdf_deletes_old_then_uploads ⟨some ⟨"files/old"⟩, "gemini-2.5-flash"⟩
    ⟨"files/old"⟩ "doc.pdf" _ rfl).2 (by intro m h; simp at h)

/-- C5: whenever the upload remote call fails (with any exception — both
`except` arms of `upload_pdf` return `False`) and the run reaches it (the
preceding cleanup did not itself raise a non-`APIError` exception),
`upload_pdf` returns failure and the session afterwards holds no handle. -/
theorem upload_pdf_error_no_handle (s : SimpleQASystem) (p : String) (o : Oracle)
    (e : Exc) (hu : o.uploadResult = Except.error e)
    (hd : ∀ m, o.deleteResult ≠ Except.error (Exc.otherError m)) :
    ∃ t, upload_pdf s p o = (Except.ok false, ⟨none, s.llm_model⟩, t) := by
  obtain ⟨t, hc⟩ := cleanup_file_ok s o hd
  exact ⟨t ++ [Call.upload p], by simp [upload_pdf, hc, hu]⟩

/-- Witness for C5: a provider error on the upload endpoint. -/
theorem upload_pdf_error_no_handle_witness :
    ∃ t, upload_pdf ⟨some ⟨"files/old"⟩, "gemini-2.5-flash"⟩ "doc.pdf"
        ⟨Except.ok (), Except.error (Exc.apiError "invalid file"), Except.ok "fine"⟩
      = (Except.ok false, ⟨none, "gemini-2.5-flash"⟩, t) :=
  upload_pdf_error_no_handle ⟨some ⟨"files/old"⟩, "gemini-2.5-flash"⟩ "doc.pdf"
    _ (Exc.apiError "invalid file") rfl (by intro m h; simp at h)

/-- `replaceAllFuel` maps the empty string to itself for any fuel. -/
theorem replaceAllFuel_nil (pat rep : List Char) (fuel : Nat) :
    replaceAllFuel pat rep fuel [] = [] := by
  cases fuel <;> rfl

/-- A match of `pat` starting strictly before the final `pat` of `pre ++ pat`
lies inside `pre ++ pat.dropLast`. -/
theorem prefix_into_dropLast (pat pre : List Char) (hpat : pat ≠ [])
    (hpre : pre ≠ []) (h : pat <+: pre ++ pat) :
    List.IsInfix pat (pre ++ pat.dropLast) := by
  have hp1 : 1 ≤ pat.length := List.length_pos.mpr hpat
  have hq1 : 1 ≤ pre.length := List.length_pos.mpr hpre
  have hlen : pat.length ≤ (pre ++ pat.dropLast).length := by
    simp only [List.length_append, List.length_dropLast]
    omega
  have h2 : (pre ++ pat.dropLast) <+: (pre ++ pat) :=
    ⟨[pat.getLast hpat], by rw [List.append_assoc, List.dropLast_append_getLast hpat]⟩
  obtain ⟨tl, htl⟩ := List.prefix_of_prefix_length_le h h2 hlen
  exact ⟨[], tl, by simpa using htl⟩

/-- When `pat` occurs in `pre ++ pat` only as its final segment, the Python
replace rewrites exactly that occurrence and leaves `pre` untouched. -/
theorem replaceAllFuel_single (pat rep : List Char) (hpat : pat ≠ []) :
    ∀ (pre : List Char) (fuel : Nat), (pre ++ pat).length ≤ fuel →
      ¬ List.IsInfix pat (pre ++ pat.dropLast) →
      replaceAllFuel pat rep fuel (pre ++ pat) = pre ++ rep := by
  intro pre
  induction pre with
  | nil =>
    intro fuel hfuel hinf
    rcases pat with _ | ⟨p, pt⟩
    · exact absurd rfl hpat
    rcases fuel with _ | f
    · simp at hfuel
    show replaceAllFuel (p :: pt) rep (f + 1) ([] ++ p :: pt) = [] ++ rep
    rw [List.nil_append, List.nil_append, replaceAllFuel,
      if_pos ⟨hpat, List.prefix_rfl⟩, List.drop_length, replaceAllFuel_nil,
      List.append_nil]
  | cons c pre ih =>
    intro fuel hfuel hinf
    rcases fuel with _ | f
    · simp at hfuel
    have hnp : ¬ (pat ≠ [] ∧ pat <+: (c :: (pre ++ pat))) := by
      rintro ⟨-, hp⟩
      exact hinf (prefix_into_dropLast pat (c :: pre) hpat (by simp) hp)
    show replaceAllFuel pat rep (f + 1) ((c :: pre) ++ pat) = (c :: pre) ++ rep
    rw [List.cons_append, replaceAllFuel, if_neg hnp, List.cons_append]
    congr 1
    refine ih f ?_ ?_
    · simp only [List.length_append, List.length_cons] at hfuel ⊢
      omega
    · rintro ⟨s, t, hst⟩
      exact hinf ⟨c :: s, t, by simp [hst]⟩

/-- C6 counterexample: `handle_question_result` rewrites every occurrence of
the placeholder string in the plain-text transcript, because Python
`str.replace` is global.  In the Ready state, with the transcript "Doc ready"
and the (legitimate, non-blank) question "Gemini: Thinking...", the answer
"42" also rewrites the user entry of the transcript: the result differs from
the transcript in which only the pending placeholder was replaced. -/
theorem handle_question_result_edits_user_entry :
    (handle_question_result
        (send_question ⟨"Doc ready", "Gemini: Thinking...", true, true⟩).1
        "42").chat_history
      = "Doc ready\n\nUser: Gemini: 42\nGemini: 42"
    ∧ (handle_question_result
        (send_question ⟨"Doc ready", "Gemini: Thinking...", true, true⟩).1
        "42").chat_history
      ≠ "Doc ready\n\nUser: Gemini: Thinking...\nGemini: 42" := by
  refine ⟨rfl, ?_⟩
  decide

/-- C6 amended: when the placeholder occurs in the transcript text only as
its final pending entry (the normal Ready-state situation), the answer
replaces it exactly once, the rest of the transcript is unchanged, and the
input is re-enabled (state back to Ready); but an occurrence of the
placeholder string elsewhere in the text would be rewritten as well. -/
theorem handle_question_result_single (app : ChatbotApp) (pre : List Char)
    (resp : String)
    (hh : app.chat_history.data = pre ++ thinkingMsg.data)
    (hinf : ¬ List.IsInfix thinkingMsg.data (pre ++ thinkingMsg.data.dropLast)) :
    (handle_question_result app resp).chat_history.data
      = pre ++ ("Gemini: " ++ resp).data
    ∧ (handle_question_result app resp).input_enabled = true
    ∧ (handle_question_result app resp).pdf_processed = app.pdf_processed := by
  refine ⟨?_, rfl, rfl⟩
  show (pyReplace app.chat_history thinkingMsg ("Gemini: " ++ resp)).data = _
  unfold pyReplace
  rw [hh]
  exact replaceAllFuel_single thinkingMsg.data ("Gemini: " ++ resp).data
    (by decide) pre (pre ++ thinkingMsg.data).length le_rfl hinf

/-- Witness for C6 amended: a transcript ending in the single placeholder. -/
theorem handle_question_result_single_witness :
    (handle_question_result
        ⟨"Doc ready\n\nUser: What is X?\nGemini: Thinking...", "", false, true⟩
        "X is Y").chat_history.data
      = ("Doc ready\n\nUser: What is X?\n").data ++ ("Gemini: " ++ "X is Y").data :=
  (handle_question_result_single
    ⟨"Doc ready\n\nUser: What is X?\nGemini: Thinking...", "", false, true⟩
    ("Doc ready\n\nUser: What is X?\n").data "X is Y" (by decide) (by decide)).1

/-- C7: a question that is empty after stripping whitespace makes
`send_question` return at once: no worker is dispatched, no warning is
shown, and the controller state (transcript, input, flags) is unchanged. -/
theorem send_question_empty_noop (app : ChatbotApp)
    (h : pyStrip app.question_input = "") :
    send_question app = (app, none, false) := by
  simp [send_question, h]

/-- Witness for C7: whitespace-only input in the Ready state. -/
theorem send_question_empty_noop_witness :
    send_question ⟨"Doc ready", "   ", true, true⟩
      = (⟨"Doc ready", "   ", true, true⟩, none, false) :=
  send_question_empty_noop ⟨"Doc ready", "   ", true, true⟩ (by decide)

/-- C8: a non-empty question submitted while no document has been
successfully processed is rejected: the warning dialog is shown, no worker
is dispatched, and the controller state (including the transcript) is
unchanged. -/
theorem send_question_rejected_unready (app : ChatbotApp)
    (hq : pyStrip app.question_input ≠ "")
    (hp : app.pdf_processed = false) :
    send_question app = (app, none, true) := by
  simp [send_question, hq, hp]

/-- Witness for C8: a question typed before any PDF was processed. -/
theorem send_question_rejected_unready_witness :
    send_question ⟨"Welcome", "What is X?", false, false⟩
      = (⟨"Welcome", "What is X?", false, false⟩, none, true) :=
  send_question_rejected_unready ⟨"Welcome", "What is X?", false, false⟩
    (by decide) rfl

/-- C9 counterexample: `os.getenv` can return the empty string (the variable
is present but set to the empty value); `if not api_key:` treats it exactly
like an absent key, so the blocking dialog is shown and the process exits
although the key is present. -/
theorem chatbotApp_init_empty_key_dialog :
    chatbotApp_init (some "") = InitOutcome.exited 1 (-1) := rfl

/-- C9 amended: with the key absent the application shows exactly one
blocking dialog and exits with the non-zero status -1, never building the
main window; with a present and non-empty key no dialog is shown and startup
proceeds to the initial UI state. -/
theorem chatbotApp_init_spec (k : String) (hk : k ≠ "") :
    chatbotApp_init none = InitOutcome.exited 1 (-1)
    ∧ chatbotApp_init (some k)
        = InitOutcome.running 0 ⟨welcomeMsg, "", false, false⟩
    ∧ (-1 : Int) ≠ 0 := by
  refine ⟨rfl, ?_, by decide⟩
  simp [chatbotApp_init, pyFalsy, hk]

/-- Witness for C9 amended at a concrete non-empty key. -/
theorem chatbotApp_init_spec_witness :
    chatbotApp_init none = InitOutcome.exited 1 (-1)
    ∧ chatbotApp_init (some "test-api-key")
        = InitOutcome.running 0 ⟨welcomeMsg, "", false, false⟩
    ∧ (-1 : Int) ≠ 0 :=
  chatbotApp_init_spec "test-api-key" (by decide)

end PDFBot
